import Mathlib

/-!
Verification development for the `opi_gpio_rs` GPIO library.

The development shallowly embeds the two Rust modules:

* `src/pin.rs` — the `GpioPin` enum (Input / Output) with its sysfs
  value-file I/O (`read`, `write`), construction (`new_output`), watch
  capability (`enable_watch`, `support_watch`) and path computation
  (`get_value_path`).
* `src/watcher.rs` — `GpioWatcher::new` (validation, initial reads and
  publishes, inotify watch registration, spawning of the background
  event-loop task) and the event loop itself, plus the `Drop`
  implementation that aborts the background task.

Effectful Rust code is embedded as pure functions over an explicit
environment `Env` (file system contents, channel-send success, watch
registration success, …) that also return the list of observable
`Action`s they performed, in order.  Fallible code returns `Except`.
The `GPIO_DIR` environment variable is modelled as always set
(`Env.gpio_dir`): per the design its absence is a fatal configuration
error, outside the behaviours under study here.
-/

namespace OpiGpio

/-- The `GpioPin` enum from `src/pin.rs`: an Input pin carries a
`support_watch` flag, an Output pin only its number.  Pin numbers are
`u8` in Rust, modelled as `Nat`. -/
inductive GpioPin where
  | Input (pin_number : Nat) (support_watch : Bool)
  | Output (pin_number : Nat)
  deriving DecidableEq, Repr

/-- Error taxonomy.  The Rust code uses `anyhow` with `bail!`/`context`
messages; each constructor corresponds to one failure site and carries
the message text from that site. -/
inductive GpioError where
  | InvalidArgument (msg : String)
  | ExportError (msg : String)
  | UnsupportedOperation (msg : String)
  | UnwatchablePinError (pin : Nat)
  | IoError (msg : String)
  | ParseError (msg : String)
  | WatchRegistrationError (path : String)
  | InotifyError (msg : String)
  | ChannelSendError (msg : String)
  deriving DecidableEq, Repr

/-- Observable side effects, recorded in program order. -/
inductive Action where
  | runGpio (args : List String)
  | fsWrite (path content : String)
  | readPin (path : String)
  | send (chan value : Nat)
  | addWatch (path : String)
  | initInotify
  | spawn
  | logError (msg : String)
  | logWarn (msg : String)
  deriving DecidableEq, Repr

/-- The environment a run executes against: the `GPIO_DIR` base
directory, the file-system contents (`none` = unreadable), and the
success of each fallible external operation. -/
structure Env where
  gpio_dir : String
  fs : String → Option String
  sendOk : Nat → Bool
  addWatchOk : String → Bool
  inotifyOk : Bool
  streamOk : Bool
  exportOk : List String → Bool
  fsWriteOk : String → Bool

/-- Semantics of Rust's `str::trim()`: drop leading and trailing
whitespace.  (Rust trims Unicode `White_Space`; value files hold ASCII,
on which this agrees.) -/
def rustTrim (s : String) : String :=
  ⟨((s.data.dropWhile Char.isWhitespace).reverse.dropWhile Char.isWhitespace).reverse⟩

/-- Semantics of Rust's `str::parse::<u8>()`: an optional leading `'+'`,
then one or more ASCII digits, with the value required to fit in `u8`. -/
def parseU8 (s : String) : Option Nat :=
  let cs := s.data
  let ds := match cs with
    | '+' :: rest => rest
    | _ => cs
  if ds ≠ [] ∧ ds.all Char.isDigit then
    let n := ds.foldl (fun a c => a * 10 + (c.toNat - 48)) 0
    if n < 256 then some n else none
  else none

namespace GpioPin

/-- Embeds `GpioPin::get_pin_number` from `src/pin.rs`. -/
def get_pin_number : GpioPin → Nat
  | .Input n _ => n
  | .Output n => n

/-- Embeds `GpioPin::support_watch` from `src/pin.rs`: the flag for Input
pins, always `false` for Output pins. -/
def support_watch : GpioPin → Bool
  | .Input _ sw => sw
  | .Output _ => false

/-- Embeds `GpioPin::get_value_path` from `src/pin.rs`:
`format!("{}/gpio{}/value", gpio_dir, pin_number)` in both arms. -/
def get_value_path (env : Env) : GpioPin → String
  | .Input n _ => env.gpio_dir ++ "/gpio" ++ toString n ++ "/value"
  | .Output n => env.gpio_dir ++ "/gpio" ++ toString n ++ "/value"

/-- Embeds `GpioPin::read` from `src/pin.rs`: `fs::read_to_string` on the
value path (failure → `IoError`), then `content.trim().parse::<u8>()`
(failure → `ParseError`). -/
def read (env : Env) (p : GpioPin) : Except GpioError Nat :=
  let value_path := p.get_value_path env
  match env.fs value_path with
  | none => .error (.IoError "Failed to read from the pin")
  | some content =>
    match parseU8 (rustTrim content) with
    | none => .error (.ParseError "Failed to parse the value from the pin")
    | some v => .ok v

/-- Embeds `GpioPin::write` from `src/pin.rs`: reject values outside `{0,1}`
before touching the file system, then `fs::write` of the decimal
rendering of the value. -/
def write (env : Env) (p : GpioPin) (value : Nat) :
    List Action × Except GpioError Unit :=
  if value ≠ 0 ∧ value ≠ 1 then
    ([], .error (.InvalidArgument "Value must be 0 or 1"))
  else
    let value_path := p.get_value_path env
    if env.fsWriteOk value_path then
      ([.fsWrite value_path (toString value)], .ok ())
    else
      ([.fsWrite value_path (toString value)],
       .error (.IoError "Failed to write to the pin"))

/-- Embeds `GpioPin::new_output` from `src/pin.rs`: reject a default outside
`{0,1}` before anything else, then run `gpio export <n> out`, then
write the default to the value file. -/
def new_output (env : Env) (pin_number default : Nat) :
    List Action × Except GpioError GpioPin :=
  if default ≠ 0 ∧ default ≠ 1 then
    ([], .error (.InvalidArgument "Default value must be 0 or 1"))
  else
    let exportArgs := ["export", toString pin_number, "out"]
    if env.exportOk exportArgs then
      let value_path := env.gpio_dir ++ "/gpio" ++ toString pin_number ++ "/value"
      if env.fsWriteOk value_path then
        ([.runGpio exportArgs, .fsWrite value_path (toString default)],
         .ok (.Output pin_number))
      else
        ([.runGpio exportArgs, .fsWrite value_path (toString default)],
         .error (.IoError "Failed to set the pin default value"))
    else
      ([.runGpio exportArgs], .error (.ExportError "Failed to export the output pin"))

/-- Embeds `GpioPin::new_input` from `src/pin.rs`: run `gpio export <n> in`;
on success the pin is an Input with `support_watch = false`. -/
def new_input (env : Env) (pin_number : Nat) :
    List Action × Except GpioError GpioPin :=
  let exportArgs := ["export", toString pin_number, "in"]
  if env.exportOk exportArgs then
    ([.runGpio exportArgs], .ok (.Input pin_number false))
  else
    ([.runGpio exportArgs], .error (.ExportError "Failed to export the input pin"))

/-- Embeds `GpioPin::enable_watch` from `src/pin.rs`.  Rust mutates `&mut
self`; here the (possibly updated) pin is returned alongside the
result.  On an Input pin, `gpio edge <n> both` is run and on success
the flag is set; on an Output pin it bails before running anything. -/
def enable_watch (env : Env) : GpioPin → (GpioPin × List Action × Except GpioError Unit)
  | .Input n sw =>
    let edgeArgs := ["edge", toString n, "both"]
    if env.exportOk edgeArgs then
      (.Input n true, [.runGpio edgeArgs], .ok ())
    else
      (.Input n sw, [.runGpio edgeArgs],
       .error (.ExportError "Failed to edge the input pin"))
  | .Output n =>
    (.Output n, [],
     .error (.UnsupportedOperation "Edge notification is not supported for output pins"))

/-- The role tag of a pin (Input vs Output), used to state role
immutability. -/
def role : GpioPin → Bool
  | .Input _ _ => true
  | .Output _ => false

end GpioPin

/-- The mask of an inotify event: which event classes it contains. -/
structure EventMask where
  modify : Bool
  create : Bool
  delete : Bool
  deriving DecidableEq, Repr

/-- One inotify event, as consumed by the watcher loop: a watch
descriptor id and a mask. -/
structure Event where
  wd : Nat
  mask : EventMask
  deriving DecidableEq, Repr

/-- The `GpioWatcher` value from `src/watcher.rs`: it owns the
background task; the task's state is its
`notifier_map : watch descriptor id → (value path, channel)`. -/
structure GpioWatcher where
  notifier_map : List (Nat × String × Nat)
  deriving DecidableEq, Repr

/-- Models `notifier_map.get(&wd)`: look up a watch descriptor id in the
internal map. -/
def lookupNm (nm : List (Nat × String × Nat)) (wd : Nat) : Option (String × Nat) :=
  match nm.find? (fun e => e.1 == wd) with
  | some e => some e.2
  | none => none

/-- The body of the registration loop of `GpioWatcher::new`
(`src/watcher.rs` lines 46–65) for one `(pin, notifier)` pair: read the
pin's current value (`?` aborts), `notifier.send` it (`?` aborts), add
an inotify watch on the value path (`?` aborts), and produce the
`notifier_map` entry for the obtained watch descriptor `wd`. -/
def pinInitStep (env : Env) (pin : GpioPin) (chan : Nat) (wd : Nat) :
    List Action × Except GpioError (Nat × String × Nat) :=
  let path := pin.get_value_path env
  match pin.read env with
  | .error e => ([.readPin path], .error e)
  | .ok v =>
    if env.sendOk chan then
      if env.addWatchOk path then
        ([.readPin path, .send chan v, .addWatch path], .ok (wd, path, chan))
      else
        ([.readPin path, .send chan v], .error (.WatchRegistrationError path))
    else
      ([.readPin path],
       .error (.ChannelSendError "Failed to notify the initial value"))

/-- The registration loop of `GpioWatcher::new`: fold `pinInitStep`
over the pin map, allocating sequential watch descriptor ids, aborting
at the first failure. -/
def registerPins (env : Env) :
    List (GpioPin × Nat) → Nat →
    List Action × Except GpioError (List (Nat × String × Nat))
  | [], _ => ([], .ok [])
  | (pin, chan) :: rest, wd =>
    match pinInitStep env pin chan wd with
    | (acts, .error e) => (acts, .error e)
    | (acts, .ok entry) =>
      match registerPins env rest (wd + 1) with
      | (acts2, .error e) => (acts ++ acts2, .error e)
      | (acts2, .ok entries) => (acts ++ acts2, .ok (entry :: entries))

/-- Embeds `GpioWatcher::new` from `src/watcher.rs`: first validate that every
pin supports watch (bailing with the unwatchable pin's number before
anything else happens), then `Inotify::init()`, then the registration
loop, then `into_event_stream`, and finally spawn the background task.
Returns the recorded actions together with the result. -/
def GpioWatcher.new (env : Env) (pin_map : List (GpioPin × Nat)) :
    List Action × Except GpioError GpioWatcher :=
  match pin_map.find? (fun pc => ! pc.1.support_watch) with
  | some pc => ([], .error (.UnwatchablePinError pc.1.get_pin_number))
  | none =>
    if env.inotifyOk then
      match registerPins env pin_map 0 with
      | (acts, .error e) => (.initInotify :: acts, .error e)
      | (acts, .ok nm) =>
        if env.streamOk then
          (.initInotify :: acts ++ [.spawn], .ok ⟨nm⟩)
        else
          (.initInotify :: acts, .error (.InotifyError "Failed to create the event stream"))
    else
      ([.initInotify], .error (.InotifyError "Failed to initialize inotify"))

/-- The body of the background task's event loop in `GpioWatcher::new`
(`src/watcher.rs` lines 73–96) for one event: only `MODIFY` events are
processed; unknown watch descriptors are skipped; a read failure is
logged and skipped; the published value is 1 iff the trimmed content
contains the character `'1'`; a send failure is logged. -/
def taskStep (env : Env) (nm : List (Nat × String × Nat)) (ev : Event) : List Action :=
  if ev.mask.modify then
    match lookupNm nm ev.wd with
    | none => []
    | some (value_path, chan) =>
      match env.fs value_path with
      | none => [.logError "Error reading GPIO value"]
      | some content =>
        let message := if ((rustTrim content).data).contains '1' then 1 else 0
        if env.sendOk chan then
          [.send chan message]
        else
          [.logWarn "Error sending message"]
  else []

/-- The background task's event loop:
`while let Some(Ok(event)) = event_stream.next().await`.  The stream is
a list of `Except` items; an `error` item ends the loop, an `ok` event
is handled by `taskStep` and the loop continues. -/
def taskRun (env : Env) (nm : List (Nat × String × Nat)) :
    List (Except String Event) → List Action
  | [] => []
  | .error _ :: _ => []
  | .ok ev :: rest => taskStep env nm ev ++ taskRun env nm rest

/-- All observable actions of a construction followed by a run of the
spawned background task over `events` (the task only exists, and hence
only acts, when construction succeeded). -/
def fullTrace (env : Env) (pin_map : List (GpioPin × Nat))
    (events : List (Except String Event)) : List Action :=
  match GpioWatcher.new env pin_map with
  | (tr, .ok w) => tr ++ taskRun env w.notifier_map events
  | (tr, .error _) => tr

/-- Operational state of a running watcher system: whether the
background task is alive, the stream items not yet consumed, and the
actions emitted so far by the task. -/
structure WatcherSys where
  alive : Bool
  pending : List (Except String Event)
  emitted : List Action
  deriving Repr

/-- Embeds `Drop for GpioWatcher` (`src/watcher.rs` lines 23–27):
`self.watcher_thread.abort()` — unconditional; the task can take no
further step, whatever its pending events. -/
def dropHandle (s : WatcherSys) : WatcherSys :=
  ⟨false, s.pending, s.emitted⟩

/-- One scheduling step of the background task: an aborted task does
nothing; otherwise the next stream item is consumed (a stream error
ends the loop, an event is handled by `taskStep`). -/
def sysStep (env : Env) (nm : List (Nat × String × Nat)) (s : WatcherSys) : WatcherSys :=
  if s.alive then
    match s.pending with
    | [] => ⟨false, [], s.emitted⟩
    | .error _ :: rest => ⟨false, rest, s.emitted⟩
    | .ok ev :: rest => ⟨true, rest, s.emitted ++ taskStep env nm ev⟩
  else s

/-- Iterates `n` scheduling steps of the background task. -/
def sysRun (env : Env) (nm : List (Nat × String × Nat)) : Nat → WatcherSys → WatcherSys
  | 0, s => s
  | n + 1, s => sysRun env nm n (sysStep env nm s)

/-- The per-pin prefix of the construction trace on the success path:
read the pin, publish the read value, register the watch.
`readValD` is the value `GpioPin::read` returned (only meaningful when
the read succeeded). -/
def readValD (env : Env) (p : GpioPin) : Nat :=
  match p.read env with
  | .ok v => v
  | .error _ => 0

/-- The three actions `GpioWatcher::new` performs for one pin when
everything succeeds, in order. -/
def initBlock (env : Env) (pc : GpioPin × Nat) : List Action :=
  [.readPin (pc.1.get_value_path env),
   .send pc.2 (readValD env pc.1),
   .addWatch (pc.1.get_value_path env)]

/-- Success of one pin's registration step: the read succeeds, the
channel accepts the initial send, and the watch registration succeeds. -/
def stepOk (env : Env) (pc : GpioPin × Nat) : Prop :=
  (∃ v, pc.1.read env = .ok v) ∧
    env.sendOk pc.2 = true ∧
    env.addWatchOk (pc.1.get_value_path env) = true

instance (env : Env) (pc : GpioPin × Nat) : Decidable (stepOk env pc) := by
  unfold stepOk
  cases pc.1.read env <;> simp <;> infer_instance

/-- A fixture environment where every external operation succeeds and
every value file reads as the line `"0\n"`. -/
def envW : Env :=
  ⟨"/gpio", fun _ => some "0\n", fun _ => true, fun _ => true,
   true, true, fun _ => true, fun _ => true⟩

/-- A fixture environment where no value file is readable. -/
def envN : Env :=
  ⟨"/gpio", fun _ => none, fun _ => true, fun _ => true,
   true, true, fun _ => true, fun _ => true⟩

/-- A fixture environment where every channel send fails (all receivers
dropped) but files read fine. -/
def envS : Env :=
  ⟨"/gpio", fun _ => some "0", fun _ => false, fun _ => true,
   true, true, fun _ => true, fun _ => true⟩

/-- A fixture environment whose value files contain `"2"`. -/
def envBad : Env :=
  ⟨"/sys/class/gpio", fun _ => some "2", fun _ => true, fun _ => true,
   true, true, fun _ => true, fun _ => true⟩

/-- A watch-capable input pin fixture. -/
def pinW : GpioPin := .Input 1 true

/-- The notifier map obtained from `GpioWatcher.new envW [(pinW, 7)]`. -/
def nmW : List (Nat × String × Nat) := [(0, "/gpio/gpio1/value", 7)]

/-- The trace of `GpioWatcher.new envW [(pinW, 7)]`. -/
def trW : List Action :=
  [.initInotify, .readPin "/gpio/gpio1/value", .send 7 0,
   .addWatch "/gpio/gpio1/value", .spawn]

/-- The watcher built by `GpioWatcher.new envW [(pinW, 7)]`. -/
def wW : GpioWatcher := ⟨nmW⟩

/-- A modify event for watch descriptor 0. -/
def evMod : Event := ⟨0, ⟨true, false, false⟩⟩

/-- A create/delete event (no modify class) for watch descriptor 0. -/
def evNoMod : Event := ⟨0, ⟨false, true, true⟩⟩

/-- A modify event for a watch descriptor absent from `nmW`. -/
def evUnknown : Event := ⟨99, ⟨true, false, false⟩⟩

/-- The function `parseU8` only produces values that fit in a `u8`. -/
theorem parseU8_lt (s : String) (v : Nat) (h : parseU8 s = some v) : v < 256 := by
  unfold parseU8 at h
  simp only [] at h
  split at h
  · split at h
    · exact Option.some.inj h ▸ (by omega)
    · exact absurd h (by simp)
  · exact absurd h (by simp)

/-- The embedded `GpioPin.read` only succeeds with values that fit in a `u8`. -/
theorem read_lt_256 {env : Env} {p : GpioPin} {v : Nat}
    (h : p.read env = .ok v) : v < 256 := by
  unfold GpioPin.read at h
  simp only [] at h
  split at h
  · exact absurd h (by simp)
  · split at h
    · exact absurd h (by simp)
    · rename_i content heq w hw
      exact Except.ok.inj h ▸ parseU8_lt _ _ hw

/-- Every `send` action produced by one iteration of the event loop
carries the value 0 or 1. -/
theorem taskStep_send_val {env : Env} {nm : List (Nat × String × Nat)}
    {ev : Event} {c v : Nat}
    (h : Action.send c v ∈ taskStep env nm ev) : v = 0 ∨ v = 1 := by
  unfold taskStep at h
  by_cases hm : ev.mask.modify = true
  · cases hlook : lookupNm nm ev.wd with
    | none => simp [hm, hlook] at h
    | some pc =>
      obtain ⟨value_path, chan⟩ := pc
      cases hfs : env.fs value_path with
      | none => simp [hm, hlook, hfs] at h
      | some content =>
        by_cases hsend : env.sendOk chan = true
        · simp [hm, hlook, hfs, hsend] at h
          have hv := h.2
          by_cases hc : '1' ∈ (rustTrim content).data
          · right
            rw [hv, if_pos hc]
          · left
            rw [hv, if_neg hc]
        · simp [hm, hlook, hfs, hsend] at h
  · simp [hm] at h

/-- Every `send` action produced by a run of the event loop carries
the value 0 or 1. -/
theorem taskRun_send_val {env : Env} {nm : List (Nat × String × Nat)}
    {events : List (Except String Event)} {c v : Nat}
    (h : Action.send c v ∈ taskRun env nm events) : v = 0 ∨ v = 1 := by
  induction events with
  | nil => simp [taskRun] at h
  | cons e rest ih =>
    cases e with
    | error s => simp [taskRun] at h
    | ok ev =>
      rw [taskRun] at h
      rcases List.mem_append.mp h with h1 | h2
      · exact taskStep_send_val h1
      · exact ih h2

/-- When the read succeeds, the channel accepts the send and the watch
registration succeeds, `pinInitStep` records read/send/addWatch in that
order and returns the map entry for the allocated descriptor. -/
theorem pinInitStep_eq_of_ok {env : Env} {pin : GpioPin} {chan v : Nat}
    (hr : pin.read env = .ok v) (hs : env.sendOk chan = true)
    (ha : env.addWatchOk (pin.get_value_path env) = true) (wd : Nat) :
    pinInitStep env pin chan wd =
      ([.readPin (pin.get_value_path env), .send chan v,
        .addWatch (pin.get_value_path env)],
       .ok (wd, pin.get_value_path env, chan)) := by
  unfold pinInitStep
  rw [hr]
  simp [hs, ha]

/-- When the read fails, `pinInitStep` aborts with exactly that error. -/
theorem pinInitStep_eq_of_read_error {env : Env} {pin : GpioPin} {chan : Nat}
    {e : GpioError} (hr : pin.read env = .error e) (wd : Nat) :
    pinInitStep env pin chan wd =
      ([.readPin (pin.get_value_path env)], .error e) := by
  unfold pinInitStep
  rw [hr]

/-- When the initial send fails, `pinInitStep` aborts with the
channel-send error. -/
theorem pinInitStep_eq_of_send_fail {env : Env} {pin : GpioPin} {chan v : Nat}
    (hr : pin.read env = .ok v) (hs : env.sendOk chan = false) (wd : Nat) :
    pinInitStep env pin chan wd =
      ([.readPin (pin.get_value_path env)],
       .error (.ChannelSendError "Failed to notify the initial value")) := by
  unfold pinInitStep
  rw [hr]
  simp [hs]

/-- When the watch registration fails, `pinInitStep` aborts with the
watch-registration error for the pin's value path. -/
theorem pinInitStep_eq_of_watch_fail {env : Env} {pin : GpioPin} {chan v : Nat}
    (hr : pin.read env = .ok v) (hs : env.sendOk chan = true)
    (ha : env.addWatchOk (pin.get_value_path env) = false) (wd : Nat) :
    pinInitStep env pin chan wd =
      ([.readPin (pin.get_value_path env), .send chan v],
       .error (.WatchRegistrationError (pin.get_value_path env))) := by
  unfold pinInitStep
  rw [hr]
  simp [hs, ha]

/-- The step `pinInitStep` never spawns the background task. -/
theorem pinInitStep_no_spawn (env : Env) (pin : GpioPin) (chan wd : Nat) :
    Action.spawn ∉ (pinInitStep env pin chan wd).1 := by
  cases hr : pin.read env with
  | error e => rw [pinInitStep_eq_of_read_error hr wd]; simp
  | ok v =>
    cases hs : env.sendOk chan with
    | false => rw [pinInitStep_eq_of_send_fail hr hs wd]; simp
    | true =>
      cases ha : env.addWatchOk (pin.get_value_path env) with
      | false => rw [pinInitStep_eq_of_watch_fail hr hs ha wd]; simp
      | true => rw [pinInitStep_eq_of_ok hr hs ha wd]; simp

/-- A successful `pinInitStep` has exactly the `initBlock` trace, the
expected map entry, and witnesses `stepOk`. -/
theorem pinInitStep_ok_shape {env : Env} {pin : GpioPin} {chan wd : Nat}
    {acts : List Action} {entry : Nat × String × Nat}
    (h : pinInitStep env pin chan wd = (acts, .ok entry)) :
    acts = initBlock env (pin, chan) ∧
    entry = (wd, pin.get_value_path env, chan) ∧ stepOk env (pin, chan) := by
  cases hr : pin.read env with
  | error e =>
    rw [pinInitStep_eq_of_read_error hr wd] at h
    simp at h
  | ok v =>
    cases hs : env.sendOk chan with
    | false =>
      rw [pinInitStep_eq_of_send_fail hr hs wd] at h
      simp at h
    | true =>
      cases ha : env.addWatchOk (pin.get_value_path env) with
      | false =>
        rw [pinInitStep_eq_of_watch_fail hr hs ha wd] at h
        simp at h
      | true =>
        rw [pinInitStep_eq_of_ok hr hs ha wd] at h
        injection h with hacts hentry
        injection hentry with hent
        refine ⟨?_, hent.symm, ⟨v, hr⟩, hs, ha⟩
        rw [← hacts]
        simp [initBlock, readValD, hr]

/-- The registration loop never spawns the background task. -/
theorem registerPins_no_spawn (env : Env) (l : List (GpioPin × Nat)) :
    ∀ wd, Action.spawn ∉ (registerPins env l wd).1 := by
  induction l with
  | nil => intro wd; simp [registerPins]
  | cons pc rest ih =>
    intro wd
    obtain ⟨pin, chan⟩ := pc
    have hstep := pinInitStep_no_spawn env pin chan wd
    rcases h1 : pinInitStep env pin chan wd with ⟨acts, res⟩
    rw [h1] at hstep
    cases res with
    | error e => simpa [registerPins, h1] using hstep
    | ok entry =>
      have hrest := ih (wd + 1)
      rcases h2 : registerPins env rest (wd + 1) with ⟨acts2, res2⟩
      rw [h2] at hrest
      cases res2 with
      | error e => simp [registerPins, h1, h2, hstep, hrest]
      | ok entries => simp [registerPins, h1, h2, hstep, hrest]

/-- A successful registration loop produced exactly the concatenation
of the per-pin `initBlock` traces, in map order. -/
theorem registerPins_ok_trace (env : Env) (l : List (GpioPin × Nat)) :
    ∀ wd nm, (registerPins env l wd).2 = .ok nm →
      (registerPins env l wd).1 = l.flatMap (initBlock env) := by
  induction l with
  | nil => intro wd nm _; simp [registerPins]
  | cons pc rest ih =>
    intro wd nm h
    obtain ⟨pin, chan⟩ := pc
    rcases h1 : pinInitStep env pin chan wd with ⟨acts, res⟩
    cases res with
    | error e => rw [registerPins, h1] at h; simp at h
    | ok entry =>
      obtain ⟨hacts, -, -⟩ := pinInitStep_ok_shape h1
      rcases h2 : registerPins env rest (wd + 1) with ⟨acts2, res2⟩
      cases res2 with
      | error e => rw [registerPins, h1, h2] at h; simp at h
      | ok entries =>
        have hrest : acts2 = rest.flatMap (initBlock env) := by
          have h3 := ih (wd + 1) entries (by rw [h2])
          rw [h2] at h3
          exact h3
        simp [registerPins, h1, h2, hacts, hrest]

/-- If every pair before `(p, c)` registers successfully and `(p, c)`
itself fails with `e`, the whole registration loop fails with `e`. -/
theorem registerPins_firstFail (env : Env) (p : GpioPin) (c : Nat) (e : GpioError)
    (hp : ∀ wd, (pinInitStep env p c wd).2 = .error e) :
    ∀ (pre post : List (GpioPin × Nat)) (wd : Nat),
      (∀ pc ∈ pre, stepOk env pc) →
      (registerPins env (pre ++ (p, c) :: post) wd).2 = .error e := by
  intro pre
  induction pre with
  | nil =>
    intro post wd _
    have := hp wd
    rcases h1 : pinInitStep env p c wd with ⟨acts, res⟩
    rw [h1] at this
    cases res with
    | error e2 => rw [List.nil_append, registerPins, h1]; simpa using this
    | ok entry => simp at this
  | cons pc pre' ih =>
    intro post wd hpre
    obtain ⟨pin, chan⟩ := pc
    obtain ⟨⟨v, hr⟩, hs, ha⟩ := hpre (pin, chan) (by simp)
    have h1 := pinInitStep_eq_of_ok hr hs ha wd
    have hrec := ih post (wd + 1) (fun qc hq => hpre qc (by simp [hq]))
    rcases h2 : registerPins env (pre' ++ (p, c) :: post) (wd + 1) with ⟨acts2, res2⟩
    rw [h2] at hrec
    cases res2 with
    | error e2 =>
      rw [List.cons_append, registerPins, h1, h2]
      simpa using hrec
    | ok entries => simp at hrec

/-- If every pin-channel pair supports watch, inotify initializes, all
pairs before `(p, c)` register successfully and `(p, c)` itself fails
with `e`, then the whole construction fails with `e` and never spawns
the background task. -/
theorem new_error_of_firstFail (env : Env) (pre post : List (GpioPin × Nat))
    (p : GpioPin) (c : Nat) (e : GpioError)
    (hall : ∀ pc ∈ pre ++ (p, c) :: post, pc.1.support_watch = true)
    (hino : env.inotifyOk = true)
    (hpre : ∀ pc ∈ pre, stepOk env pc)
    (hp : ∀ wd, (pinInitStep env p c wd).2 = .error e) :
    ∃ tr, GpioWatcher.new env (pre ++ (p, c) :: post) = (tr, .error e) ∧
      Action.spawn ∉ tr := by
  have hreg2 := registerPins_firstFail env p c e hp pre post 0 hpre
  have hfind : (pre ++ (p, c) :: post).find? (fun pc => ! pc.1.support_watch) = none := by
    rw [List.find?_eq_none]
    intro x hx
    simp [hall x hx]
  rcases hreg : registerPins env (pre ++ (p, c) :: post) 0 with ⟨acts, res⟩
  rw [hreg] at hreg2
  cases res with
  | ok nm => simp at hreg2
  | error e2 =>
    have he2 : e2 = e := by simpa using hreg2
    subst he2
    refine ⟨.initInotify :: acts, ?_, ?_⟩
    · unfold GpioWatcher.new
      rw [hfind]
      simp [hino, hreg]
    · intro hmem2
      rcases List.mem_cons.mp hmem2 with hq | hq
      · exact absurd hq (by decide)
      · have hns := registerPins_no_spawn env (pre ++ (p, c) :: post) 0
        rw [hreg] at hns
        exact hns hq

/-- C1: on a successful construction, the trace is exactly: inotify
init, then for each pin in map order a read of its current value
immediately followed by the publish of that value and only then the
watch registration for that pin, and after all pins the task spawn;
hence in the combined construction-plus-task trace every initial-value
publication precedes the spawn, which precedes every change-event
publication. -/
theorem claim1_initial_publish_before_watch_and_spawn
    (env : Env) (pin_map : List (GpioPin × Nat))
    (events : List (Except String Event)) (w : GpioWatcher) (tr : List Action)
    (h : GpioWatcher.new env pin_map = (tr, .ok w)) :
    tr = .initInotify :: (pin_map.flatMap (initBlock env) ++ [.spawn]) ∧
    fullTrace env pin_map events =
      .initInotify :: (pin_map.flatMap (initBlock env) ++
        .spawn :: taskRun env w.notifier_map events) := by
  have h0 := h
  unfold GpioWatcher.new at h
  cases hfind : pin_map.find? (fun pc => ! pc.1.support_watch) with
  | some pc =>
    rw [hfind] at h
    simp at h
  | none =>
    rw [hfind] at h
    by_cases hino : env.inotifyOk = true
    · rcases hreg : registerPins env pin_map 0 with ⟨acts, res⟩
      rw [hreg] at h
      cases res with
      | error e => simp [hino] at h
      | ok nm =>
        by_cases hstr : env.streamOk = true
        · simp only [hino, if_true, hstr] at h
          injection h with htr hw
          have hacts : acts = pin_map.flatMap (initBlock env) := by
            have h3 := registerPins_ok_trace env pin_map 0 nm (by rw [hreg])
            rw [hreg] at h3
            exact h3
          constructor
          · rw [← htr, hacts]
            simp
          · unfold fullTrace
            rw [h0, ← htr, hacts]
            simp
        · simp [hino, hstr] at h
    · simp [hino] at h

/-- C1 witness: the successful one-pin construction on the all-ok
fixture environment, with the trace and ordering instantiated. -/
theorem claim1_witness :
    trW = .initInotify :: ([(pinW, 7)].flatMap (initBlock envW) ++ [.spawn]) ∧
    fullTrace envW [(pinW, 7)] [] =
      .initInotify :: ([(pinW, 7)].flatMap (initBlock envW) ++
        .spawn :: taskRun envW wW.notifier_map []) :=
  claim1_initial_publish_before_watch_and_spawn envW [(pinW, 7)] [] wW trW rfl

/-- C2: whenever the map contains a pin that does not support watch,
construction fails with `UnwatchablePinError` (naming such a pin) and
performs no action at all — no inotify allocation, no read, no publish,
no registration. -/
theorem claim2_unwatchable_pin_rejected_without_side_effects
    (env : Env) (pin_map : List (GpioPin × Nat)) (pc : GpioPin × Nat)
    (hmem : pc ∈ pin_map) (hw : pc.1.support_watch = false) :
    ∃ qc ∈ pin_map, qc.1.support_watch = false ∧
      GpioWatcher.new env pin_map =
        ([], .error (.UnwatchablePinError qc.1.get_pin_number)) := by
  have hex : (pin_map.find? (fun qc => ! qc.1.support_watch)).isSome := by
    rw [List.find?_isSome]
    exact ⟨pc, hmem, by simp [hw]⟩
  cases hfind : pin_map.find? (fun qc => ! qc.1.support_watch) with
  | none =>
    rw [hfind] at hex
    simp at hex
  | some qc =>
    refine ⟨qc, List.mem_of_find?_eq_some hfind, ?_, ?_⟩
    · have h1 := List.find?_some hfind
      simpa using h1
    · unfold GpioWatcher.new
      rw [hfind]

/-- C2 witness: a map holding one input pin whose watch capability was
never enabled is rejected with an empty trace. -/
theorem claim2_witness :
    ∃ qc ∈ [((GpioPin.Input 2 false), 0)], qc.1.support_watch = false ∧
      GpioWatcher.new envW [((GpioPin.Input 2 false), 0)] =
        ([], .error (.UnwatchablePinError qc.1.get_pin_number)) :=
  claim2_unwatchable_pin_rejected_without_side_effects envW
    [((GpioPin.Input 2 false), 0)] ((GpioPin.Input 2 false), 0) (by simp) rfl

/-- C3: if (with every earlier pair succeeding) a pin's initial read
fails, or its watch registration fails, the whole construction aborts
with exactly that originating error, returns no watcher, and never
spawns the background task. -/
theorem claim3_construction_all_or_nothing
    (env : Env) (pre post : List (GpioPin × Nat)) (p : GpioPin) (c : Nat)
    (hall : ∀ pc ∈ pre ++ (p, c) :: post, pc.1.support_watch = true)
    (hino : env.inotifyOk = true)
    (hpre : ∀ pc ∈ pre, stepOk env pc)
    (hfail : (∃ e, p.read env = .error e) ∨
      ((∃ v, p.read env = .ok v) ∧ env.sendOk c = true ∧
        env.addWatchOk (p.get_value_path env) = false)) :
    ∃ tr e, GpioWatcher.new env (pre ++ (p, c) :: post) = (tr, .error e) ∧
      Action.spawn ∉ tr ∧
      (p.read env = .error e ∨ e = .WatchRegistrationError (p.get_value_path env)) := by
  obtain ⟨e, hp, horig⟩ :
      ∃ e, (∀ wd, (pinInitStep env p c wd).2 = .error e) ∧
        (p.read env = .error e ∨ e = .WatchRegistrationError (p.get_value_path env)) := by
    rcases hfail with ⟨e, hr⟩ | ⟨⟨v, hr⟩, hs, ha⟩
    · exact ⟨e, fun wd => by rw [pinInitStep_eq_of_read_error hr wd], .inl hr⟩
    · exact ⟨.WatchRegistrationError (p.get_value_path env),
        fun wd => by rw [pinInitStep_eq_of_watch_fail hr hs ha wd], .inr rfl⟩
  obtain ⟨tr, hnew, hsp⟩ := new_error_of_firstFail env pre post p c e hall hino hpre hp
  exact ⟨tr, e, hnew, hsp, horig⟩

/-- C3 witness: with the value file unreadable, the one-pin
construction aborts with the read's `IoError` and no spawn. -/
theorem claim3_witness :
    ∃ tr e, GpioWatcher.new envN ([] ++ (pinW, 7) :: []) = (tr, .error e) ∧
      Action.spawn ∉ tr ∧
      (GpioPin.read envN pinW = .error e ∨
        e = .WatchRegistrationError (GpioPin.get_value_path envN pinW)) :=
  claim3_construction_all_or_nothing envN [] [] pinW 7
    (by intro pc hpc; simp at hpc; subst hpc; rfl) rfl (by simp)
    (.inl ⟨.IoError "Failed to read from the pin", rfl⟩)

/-- C10: if (with every earlier pair succeeding) publishing a pin's
initial value fails, the whole construction aborts with the
channel-send error and never spawns — whereas the same send failure
inside the running background task is only logged and the loop
continues. -/
theorem claim10_initial_send_failure_aborts
    (env : Env) (pre post : List (GpioPin × Nat)) (p : GpioPin) (c : Nat)
    (hall : ∀ pc ∈ pre ++ (p, c) :: post, pc.1.support_watch = true)
    (hino : env.inotifyOk = true)
    (hpre : ∀ pc ∈ pre, stepOk env pc)
    (hread : ∃ v, p.read env = .ok v)
    (hsend : env.sendOk c = false) :
    (∃ tr, GpioWatcher.new env (pre ++ (p, c) :: post) =
        (tr, .error (.ChannelSendError "Failed to notify the initial value")) ∧
      Action.spawn ∉ tr) ∧
    (∀ (env2 : Env) (nm : List (Nat × String × Nat)) (ev : Event)
        (value_path : String) (chan : Nat) (content : String)
        (rest : List (Except String Event)),
      ev.mask.modify = true → lookupNm nm ev.wd = some (value_path, chan) →
      env2.fs value_path = some content → env2.sendOk chan = false →
      taskRun env2 nm (.ok ev :: rest) =
        .logWarn "Error sending message" :: taskRun env2 nm rest) := by
  constructor
  · obtain ⟨v, hr⟩ := hread
    exact new_error_of_firstFail env pre post p c
      (.ChannelSendError "Failed to notify the initial value") hall hino hpre
      (fun wd => by rw [pinInitStep_eq_of_send_fail hr hsend wd])
  · intro env2 nm ev value_path chan content rest hm hl hf hs
    have hstep : taskStep env2 nm ev = [.logWarn "Error sending message"] := by
      unfold taskStep
      simp [hm, hl, hf, hs]
    rw [taskRun, hstep]
    rfl

/-- C10 witness: one watch-capable pin whose channel rejects the
initial send (all receivers dropped) aborts construction, while the
same closed channel in the running loop only logs. -/
theorem claim10_witness :
    (∃ tr, GpioWatcher.new envS ([] ++ (pinW, 7) :: []) =
        (tr, .error (.ChannelSendError "Failed to notify the initial value")) ∧
      Action.spawn ∉ tr) ∧
    (∀ (env2 : Env) (nm : List (Nat × String × Nat)) (ev : Event)
        (value_path : String) (chan : Nat) (content : String)
        (rest : List (Except String Event)),
      ev.mask.modify = true → lookupNm nm ev.wd = some (value_path, chan) →
      env2.fs value_path = some content → env2.sendOk chan = false →
      taskRun env2 nm (.ok ev :: rest) =
        .logWarn "Error sending message" :: taskRun env2 nm rest) :=
  claim10_initial_send_failure_aborts envS [] [] pinW 7
    (by intro pc hpc; simp at hpc; subst hpc; rfl) rfl (by simp)
    ⟨0, rfl⟩ rfl

/-- C4: for every modify event whose watch identifier is known and
whose value file is readable (and whose channel is open), the value
sent is 1 exactly when the trimmed file content contains the character
`'1'`, and 0 otherwise; and every value any run of the background task
ever sends is 0 or 1, for arbitrary file content. -/
theorem claim4_published_value_from_trimmed_content
    (env : Env) (nm : List (Nat × String × Nat)) (ev : Event)
    (value_path : String) (chan : Nat) (content : String)
    (hm : ev.mask.modify = true)
    (hl : lookupNm nm ev.wd = some (value_path, chan))
    (hf : env.fs value_path = some content)
    (hs : env.sendOk chan = true) :
    taskStep env nm ev =
      [.send chan (if ((rustTrim content).data).contains '1' then 1 else 0)] ∧
    ∀ (events : List (Except String Event)) (c v : Nat),
      Action.send c v ∈ taskRun env nm events → v = 0 ∨ v = 1 := by
  constructor
  · unfold taskStep
    simp [hm, hl, hf, hs]
  · intro events c v h
    exact taskRun_send_val h

/-- C4 witness: on the fixture environment whose value file reads
`"0\n"`, the modify event for descriptor 0 publishes 0 on channel 7. -/
theorem claim4_witness :
    taskStep envW nmW evMod =
      [.send 7 (if ((rustTrim "0\n").data).contains '1' then 1 else 0)] ∧
    ∀ (events : List (Except String Event)) (c v : Nat),
      Action.send c v ∈ taskRun envW nmW events → v = 0 ∨ v = 1 :=
  claim4_published_value_from_trimmed_content envW nmW evMod
    "/gpio/gpio1/value" 7 "0\n" rfl rfl rfl rfl

/-- C5: in the event loop, non-modify events are ignored, unknown
watch identifiers are silently skipped, a read failure is logged and
skipped, a send failure is logged, and in every case the loop
continues with the remaining events. -/
theorem claim5_event_loop_resilient (env : Env) (nm : List (Nat × String × Nat)) :
    (∀ ev : Event, ev.mask.modify = false → taskStep env nm ev = []) ∧
    (∀ ev : Event, lookupNm nm ev.wd = none → taskStep env nm ev = []) ∧
    (∀ (ev : Event) (value_path : String) (chan : Nat),
      ev.mask.modify = true → lookupNm nm ev.wd = some (value_path, chan) →
      env.fs value_path = none →
      taskStep env nm ev = [.logError "Error reading GPIO value"]) ∧
    (∀ (ev : Event) (value_path : String) (chan : Nat) (content : String),
      ev.mask.modify = true → lookupNm nm ev.wd = some (value_path, chan) →
      env.fs value_path = some content → env.sendOk chan = false →
      taskStep env nm ev = [.logWarn "Error sending message"]) ∧
    (∀ (ev : Event) (rest : List (Except String Event)),
      taskRun env nm (.ok ev :: rest) = taskStep env nm ev ++ taskRun env nm rest) := by
  refine ⟨?_, ?_, ?_, ?_, ?_⟩
  · intro ev hm
    unfold taskStep
    simp [hm]
  · intro ev hl
    unfold taskStep
    by_cases hm : ev.mask.modify = true <;> simp [hm, hl]
  · intro ev value_path chan hm hl hf
    unfold taskStep
    simp [hm, hl, hf]
  · intro ev value_path chan content hm hl hf hs
    unfold taskStep
    simp [hm, hl, hf, hs]
  · intro ev rest
    rfl

/-- C5 witness: concrete instances of all five parts on the fixture
map, using a create/delete-only event, an unknown descriptor, an
unreadable file, and a closed channel. -/
theorem claim5_witness :
    taskStep envW nmW evNoMod = [] ∧
    taskStep envW nmW evUnknown = [] ∧
    taskStep envN nmW evMod = [.logError "Error reading GPIO value"] ∧
    taskStep envS nmW evMod = [.logWarn "Error sending message"] ∧
    taskRun envW nmW (.ok evMod :: []) =
      taskStep envW nmW evMod ++ taskRun envW nmW [] :=
  ⟨(claim5_event_loop_resilient envW nmW).1 evNoMod rfl,
   (claim5_event_loop_resilient envW nmW).2.1 evUnknown rfl,
   (claim5_event_loop_resilient envN nmW).2.2.1 evMod "/gpio/gpio1/value" 7 rfl rfl rfl,
   (claim5_event_loop_resilient envS nmW).2.2.2.1 evMod "/gpio/gpio1/value" 7 "0" rfl rfl rfl rfl,
   (claim5_event_loop_resilient envW nmW).2.2.2.2 evMod []⟩

/-- C6 counterexample: on a value file containing `"2"`, `read`
succeeds with the value 2, which is outside `{0, 1}` — refuting the
claim that `read` never succeeds with a value outside `{0, 1}`. -/
theorem claim6_counterexample :
    GpioPin.read envBad (GpioPin.Input 5 true) = Except.ok 2 ∧
    (2 : Nat) ≠ 0 ∧ (2 : Nat) ≠ 1 :=
  ⟨rfl, by decide, by decide⟩

/-- C6 (amended): `read` returns the `u8` (hence < 256) integer parsed
from the trimmed file content; it fails with `IoError` when the file
cannot be read and with `ParseError` when the trimmed content does not
parse as a `u8`; whenever the parse succeeds the parsed value — not
necessarily in `{0, 1}` — is returned. -/
theorem claim6_read_parses_u8 (env : Env) (p : GpioPin) :
    (∀ v, p.read env = .ok v → v < 256) ∧
    (env.fs (p.get_value_path env) = none →
      p.read env = .error (.IoError "Failed to read from the pin")) ∧
    (∀ content, env.fs (p.get_value_path env) = some content →
      parseU8 (rustTrim content) = none →
      p.read env = .error (.ParseError "Failed to parse the value from the pin")) ∧
    (∀ content v, env.fs (p.get_value_path env) = some content →
      parseU8 (rustTrim content) = some v → p.read env = .ok v) := by
  refine ⟨?_, ?_, ?_, ?_⟩
  · intro v h
    exact read_lt_256 h
  · intro h
    unfold GpioPin.read
    simp [h]
  · intro content h hp
    unfold GpioPin.read
    simp [h, hp]
  · intro content v h hp
    unfold GpioPin.read
    simp [h, hp]

/-- C6 witness: on the fixture whose files read `"2"`, the read bound
and the parse-success case instantiated concretely. -/
theorem claim6_witness :
    (2 : Nat) < 256 ∧ GpioPin.read envBad (GpioPin.Input 5 true) = Except.ok 2 :=
  ⟨(claim6_read_parses_u8 envBad (GpioPin.Input 5 true)).1 2 rfl,
   (claim6_read_parses_u8 envBad (GpioPin.Input 5 true)).2.2.2 "2" 2 rfl rfl⟩

/-- C7: dropping the watcher handle aborts the background task
unconditionally and immediately: in the aborted state no scheduling
step runs, so however many steps are taken and whatever events are
still pending (including further modify events on watched files), the
emitted notifications stay exactly what they were at the drop. -/
theorem claim7_drop_aborts_task (env : Env) (nm : List (Nat × String × Nat))
    (s : WatcherSys) (n : Nat) :
    (dropHandle s).alive = false ∧
    sysRun env nm n (dropHandle s) = dropHandle s ∧
    (sysRun env nm n (dropHandle s)).emitted = s.emitted := by
  have hfrozen : ∀ k, sysRun env nm k (dropHandle s) = dropHandle s := by
    intro k
    induction k with
    | zero => rfl
    | succ m ih =>
      have hdead : sysStep env nm (dropHandle s) = dropHandle s := by
        unfold sysStep dropHandle
        simp
      rw [sysRun, hdead, ih]
  exact ⟨rfl, hfrozen n, by rw [hfrozen n]; rfl⟩

/-- C8: a pin's role never changes (`enable_watch`, the only mutating
operation, preserves it), an Output pin never supports watch, and
`enable_watch` on an Output pin fails with the unsupported-operation
error, running nothing and returning the pin unchanged. -/
theorem claim8_role_immutable_output_unwatchable
    (env : Env) (p : GpioPin) (n : Nat) :
    ((p.enable_watch env).1).role = p.role ∧
    (GpioPin.Output n).support_watch = false ∧
    (GpioPin.Output n).enable_watch env =
      (.Output n, [],
       .error (.UnsupportedOperation "Edge notification is not supported for output pins")) := by
  refine ⟨?_, rfl, rfl⟩
  cases p with
  | Input m sw =>
    unfold GpioPin.enable_watch
    by_cases h : env.exportOk ["edge", toString m, "both"] = true <;>
      simp [h, GpioPin.role]
  | Output m => rfl

/-- C9: `write` of a value outside `{0, 1}` fails with the
invalid-argument error and performs no action at all, and `new_output`
with such a default fails the same way before invoking the export tool
(no export, no file write). -/
theorem claim9_invalid_value_rejected_without_mutation
    (env : Env) (p : GpioPin) (pin_number v : Nat)
    (_h256 : v < 256) (h0 : v ≠ 0) (h1 : v ≠ 1) :
    GpioPin.write env p v =
      ([], .error (.InvalidArgument "Value must be 0 or 1")) ∧
    GpioPin.new_output env pin_number v =
      ([], .error (.InvalidArgument "Default value must be 0 or 1")) := by
  constructor
  · unfold GpioPin.write
    simp [h0, h1]
  · unfold GpioPin.new_output
    simp [h0, h1]

/-- C9 witness: writing 2 and constructing an output with default 2
are rejected without any action. -/
theorem claim9_witness :
    GpioPin.write envW pinW 2 =
      ([], .error (.InvalidArgument "Value must be 0 or 1")) ∧
    GpioPin.new_output envW 3 2 =
      ([], .error (.InvalidArgument "Default value must be 0 or 1")) :=
  claim9_invalid_value_rejected_without_mutation envW pinW 3 2
    (by decide) (by decide) (by decide)

end OpiGpio
